import Mathlib

set_option autoImplicit false

/-!
Shallow embedding of the chat wrappers of reyxbo/reyapi, centred on
src/src/reyweb/rapi/rali.py (class APIAliQwen) and the Baidu chat retry
logic of src/rbaidu/rbaidu_chat.py / src/src/reyweb/rapi/rbaidu.py.

Conventions of the embedding:
- Python dict lookups that raise KeyError / TypeError on missing or
  None-valued data are modelled with Except PyErr.
- Timestamps are Int epoch values; now("timestamp") from the external
  reykit library is modelled as milliseconds, the only unit under which
  the conversion history_max_time * 1000 in get_chat_records_history is
  coherent with the stored record times.
- Python float parameters (rand, history_max_time) are modelled as Rat.
- The SSE transport is abstracted: SSELine.data j models a stream line
  that passes the startswith data-colon filter and whose payload parses
  to the JSON value j; SSELine.other models every skipped line.
- The vendor JSON envelope output.choices[0].message is flattened into
  RespOutput; only the presence or absence of the content key is
  tracked, because extract_response_text indexes it directly while the
  other message fields are read with .get.
- The database is modelled as absent (database=None): APIDatabaseRecord
  setitem and record are no-ops in that case, but insert_db still
  evaluates record["token"]["total"] before the no-op call, so a None
  token raises TypeError; this is kept.
-/

namespace ReyAPI

/-- Python exception kinds raised by the modelled code paths. -/
inductive PyErr : Type where
  | keyError
  | typeError
  | valueError
  | assertionError
  | assertionText (msg : String)
deriving DecidableEq, Repr

/-- role field of a chat record: system, user or assistant. -/
inductive ChatRecordRole : Type where
  | system
  | user
  | assistant
deriving DecidableEq, Repr

/-- ChatRecordToken of rali.py: usage token counters. -/
structure ChatRecordToken : Type where
  total : Nat
  input : Nat
  output : Nat
  output_think : Option Nat
deriving DecidableEq, Repr

/-- ChatResponseWebItem of rali.py: one normalized web citation. -/
structure ChatResponseWebItem : Type where
  site : Option String
  icon : Option String
  index : Nat
  url : String
  title : String
deriving DecidableEq, Repr

/-- ChatRecord of rali.py: one turn of a conversation. -/
structure ChatRecord : Type where
  time : Int
  role : ChatRecordRole
  content : Option String
  len : Option Nat
  token : Option ChatRecordToken
  web : Option (List ChatResponseWebItem)
  think : Option String
deriving DecidableEq, Repr

/-- The JSON value of message.content: key absent (direct indexing
raises KeyError), JSON null, or a string. -/
inductive ContentField : Type where
  | absent
  | null
  | str (s : String)
deriving DecidableEq, Repr

/-- A raw entry of output.search_info.search_results before the
normalization done by extract_response_web.  site_name and icon are
Option to model absent keys, which setdefault fills with None. -/
structure RawWebItem : Type where
  site_name : Option String
  icon : Option String
  index : Nat
  url : String
  title : String
deriving DecidableEq, Repr

/-- The usage object of the vendor response. -/
structure RespUsage : Type where
  total_tokens : Nat
  input_tokens : Nat
  output_tokens : Nat
  reasoning_tokens : Option Nat
deriving DecidableEq, Repr

/-- Flattened output.choices[0].message together with search_info. -/
structure RespOutput : Type where
  content : ContentField
  reasoning_content : Option String
  search_results : List RawWebItem
deriving DecidableEq, Repr

/-- A decoded vendor response JSON object.  code models the presence of
an error-code field checked by request. -/
structure RespJson : Type where
  output : Option RespOutput
  usage : Option RespUsage
  code : Option String
deriving DecidableEq, Repr

/-- One line of the streamed response: data j is a line that starts
with the data-colon marker and parses to j, other is any skipped line. -/
inductive SSELine : Type where
  | data (j : RespJson)
  | other
deriving DecidableEq, Repr

/-- Concatenation of a list of strings, in order. -/
def strConcat : List String → String
  | [] => ""
  | s :: rest => s ++ strConcat rest

namespace APIAliQwen

/-- Configuration held by an APIAliQwen instance (database=None). -/
structure Config : Type where
  system : Option String
  rand : ℚ
  history_max_char : Option Nat
  history_max_time : Option ℚ
deriving DecidableEq

/-- APIAliQwen.__init__ (rali.py lines 74-117): rejects a randomness
value outside the closed interval [0,1] with ValueError, otherwise
stores the configuration and an empty history. -/
def init (system : Option String) (rand : ℚ)
    (history_max_char : Option Nat) (history_max_time : Option ℚ) :
    Except PyErr Config :=
  if 0 ≤ rand ∧ rand ≤ 1 then
    .ok ⟨system, rand, history_max_char, history_max_time⟩
  else
    .error .valueError

/-- extract_response_text (rali.py lines 178-198): None when the output
key is absent, otherwise output.choices[0].message.content, where a
missing content key raises KeyError and a JSON null becomes None. -/
def extract_response_text (j : RespJson) : Except PyErr (Option String) :=
  match j.output with
  | none => .ok none
  | some o =>
    match o.content with
    | .absent => .error .keyError
    | .null => .ok none
    | .str s => .ok (some s)

/-- extract_response_token (rali.py lines 201-224): None when usage is
absent, otherwise the four counters. -/
def extract_response_token (j : RespJson) : Option ChatRecordToken :=
  j.usage.map fun u =>
    ⟨u.total_tokens, u.input_tokens, u.output_tokens, u.reasoning_tokens⟩

/-- Per-item normalization of extract_response_web: site_name is
renamed to site, and empty-string site or icon becomes None. -/
def normalizeWebItem (r : RawWebItem) : ChatResponseWebItem :=
  { site := match r.site_name with
      | some "" => none
      | x => x
    icon := match r.icon with
      | some "" => none
      | x => x
    index := r.index
    url := r.url
    title := r.title }

/-- extract_response_web (rali.py lines 227-254): indexes the output
key directly (KeyError when absent), reads search_info.search_results
with defaults, normalizes each item, and turns an empty list into
None. -/
def extract_response_web (j : RespJson) :
    Except PyErr (Option (List ChatResponseWebItem)) :=
  match j.output with
  | none => .error .keyError
  | some o =>
    match o.search_results.map normalizeWebItem with
    | [] => .ok none
    | l => .ok (some l)

/-- extract_response_think (rali.py lines 257-275): indexes the output
key directly (KeyError when absent), reads reasoning_content with .get,
and normalizes the empty string to None. -/
def extract_response_think (j : RespJson) : Except PyErr (Option String) :=
  match j.output with
  | none => .error .keyError
  | some o =>
    match o.reasoning_content with
    | some "" => .ok none
    | x => .ok x

/-- extract_response_record (rali.py lines 278-310): builds the
assistant reply record from a full response JSON; len is the character
length of the content when the content is not None. -/
def extract_response_record (nowTs : Int) (j : RespJson) :
    Except PyErr ChatRecord := do
  let text ← extract_response_text j
  let token := extract_response_token j
  let web ← extract_response_web j
  let think ← extract_response_think j
  .ok { time := nowTs
        role := .assistant
        content := text
        len := text.map String.length
        token := token
        web := web
        think := think }

/-- The shared mutable state captured by the closure of _generator in
extract_response_generator: the chat_record_reply dictionary and the
nonlocal is_think_emptied flag. -/
structure GenState : Type where
  record : ChatRecord
  isThinkEmptied : Bool
deriving DecidableEq, Repr

/-- Scan for the first line passing the data-colon filter, returning
its JSON payload and the remaining lines of the single-pass iterator. -/
def scanFirstData : List SSELine → Option (RespJson × List SSELine)
  | [] => none
  | .data j :: rest => some (j, rest)
  | .other :: rest => scanFirstData rest

/-- Head of extract_response_generator (rali.py lines 313-341): locate
the first data line (AssertionError when none exists), extract the
initial reply record from it, and set is_think_emptied to the Python
truthiness-negation of the think field. -/
def extract_response_generator (nowTs : Int) (lines : List SSELine) :
    Except PyErr (GenState × List SSELine) :=
  match scanFirstData lines with
  | none => .error .assertionError
  | some (j, rest) => do
    let r ← extract_response_record nowTs j
    let emptied : Bool :=
      match r.think with
      | none => true
      | some s => s == ""
    .ok (⟨r, emptied⟩, rest)

/-- The normalization done at the start of each generator body:
content = content or empty, think = think or empty. -/
def normRecord (r : ChatRecord) : ChatRecord :=
  { r with content := some (r.content.getD ""), think := some (r.think.getD "") }

/-- Generator state after the normalization at the first next call. -/
def normState (st : GenState) : GenState :=
  { st with record := normRecord st.record }

/-- Python augmented assignment content += fragment: TypeError when the
current value is None. -/
def optAppend : Option String → String → Except PyErr (Option String)
  | none, _ => .error .typeError
  | some c, f => .ok (some (c ++ f))

/-- Python augmented assignment len += n: TypeError when the current
value is None. -/
def optLenAdd : Option Nat → Nat → Except PyErr (Option Nat)
  | none, _ => .error .typeError
  | some m, n => .ok (some (m + n))

/-- insert_db (rali.py lines 1031-1050): with database=None every
db_record write and the final record() call are no-ops, but the
right-hand side record["token"]["total"] is evaluated first and raises
TypeError when the token field is None. -/
def insert_db (r : ChatRecord) : Except PyErr Unit :=
  match r.token with
  | none => .error .typeError
  | some _ => .ok ()

/-- The per-line updates shared by both generator modes (rali.py lines
390-397): the token counters are overwritten by every line (last wins,
including None), and the web citations are extracted only while the web
field is still None (first non-empty wins). -/
def updateTokenWeb (st : GenState) (j : RespJson) : Except PyErr GenState :=
  match st.record.web with
  | none =>
    match extract_response_web j with
    | .error e => .error e
    | .ok w =>
      .ok { st with record :=
              { st.record with token := extract_response_token j, web := w } }
  | some _ =>
    .ok { st with record := { st.record with token := extract_response_token j } }

/-- The loop of _generator in text mode (rali.py lines 379-426): skip
non-data lines, update token and web, append each non-None reply
fragment to content and len and yield it; when the line iterator is
exhausted without a break the for-else clause calls insert_db.  Returns
the final state and the yielded fragments. -/
def drainTextLoop : GenState → List SSELine → Except PyErr (GenState × List String)
  | st, [] => do
    insert_db st.record
    .ok (st, [])
  | st, .other :: rest => drainTextLoop st rest
  | st, .data j :: rest => do
    let st1 ← updateTokenWeb st j
    match ← extract_response_text j with
    | none => drainTextLoop st1 rest
    | some f => do
      let c ← optAppend st1.record.content f
      let l ← optLenAdd st1.record.len f.length
      let st2 := { st1 with record := { st1.record with content := c, len := l } }
      let (st3, ys) ← drainTextLoop st2 rest
      .ok (st3, f :: ys)

/-- The first next() call on the text generator (rali.py lines 359-374):
normalize content and think, raise AssertionError with the literal
message of the source when the think stream is not yet emptied, and
otherwise yield the current accumulated content. -/
def textGenFirstNext (st : GenState) : Except PyErr (GenState × String) :=
  if (normState st).isThinkEmptied then
    .ok (normState st, (normState st).record.content.getD "")
  else .error (.assertionText ("must first used up think generator"))

/-- Fully draining the text generator: the first next followed by the
text-mode loop over the remaining shared lines.  Returns the final
shared state and the complete sequence of yielded fragments. -/
def drainText (st : GenState) (lines : List SSELine) :
    Except PyErr (GenState × List String) := do
  let (st1, y0) ← textGenFirstNext st
  let (st2, ys) ← drainTextLoop st1 lines
  .ok (st2, y0 :: ys)

/-- The loop of _generator in think mode (rali.py lines 379-426): on a
line with a thinking fragment, append it to think and yield it; on a
line with no thinking payload, set is_think_emptied, overwrite content
with that line's reply text, add its length to len when not None, and
stop (break, so no insert_db); when the iterator is exhausted without a
break, the for-else clause calls insert_db.  Returns the final state,
the yielded fragments and the unconsumed lines. -/
def drainThinkLoop :
    GenState → List SSELine → Except PyErr (GenState × List String × List SSELine)
  | st, [] => do
    insert_db st.record
    .ok (st, [], [])
  | st, .other :: rest => drainThinkLoop st rest
  | st, .data j :: rest => do
    let st1 ← updateTokenWeb st j
    match ← extract_response_think j with
    | none => do
      let t ← extract_response_text j
      let l ← match t with
        | none => .ok st1.record.len
        | some s => optLenAdd st1.record.len s.length
      .ok ({ record := { st1.record with content := t, len := l },
             isThinkEmptied := true }, [], rest)
    | some f => do
      let c ← optAppend st1.record.think f
      let st2 := { st1 with record := { st1.record with think := c } }
      let (st3, ys, rem) ← drainThinkLoop st2 rest
      .ok (st3, f :: ys, rem)

/-- Fully draining the think generator: the normalization, the first
yield of the accumulated think text, then the think-mode loop. -/
def drainThink (st : GenState) (lines : List SSELine) :
    Except PyErr (GenState × List String × List SSELine) := do
  let st1 := normState st
  let y0 := st1.record.think.getD ""
  let (st2, ys, rem) ← drainThinkLoop st1 lines
  .ok (st2, y0 :: ys, rem)

/-- The documented no-think streaming protocol: build the generator
state from the stream, then fully drain the text generator. -/
def runTextStream (nowTs : Int) (lines : List SSELine) :
    Except PyErr (GenState × List String) := do
  let (st, rest) ← extract_response_generator nowTs lines
  drainText st rest

/-- The documented thinking streaming protocol: build the generator
state, fully drain the think generator, then fully drain the text
generator on the remaining shared lines.  Returns the final shared
state, the think yields and the text yields. -/
def runThinkThenText (nowTs : Int) (lines : List SSELine) :
    Except PyErr (GenState × List String × List String) := do
  let (st, rest) ← extract_response_generator nowTs lines
  let (st1, thinkYs, rem) ← drainThink st rest
  let (st2, textYs) ← drainText st1 rem
  .ok (st2, thinkYs, textYs)

end APIAliQwen

/-- A per-session history list, as stored in self.data. -/
abbrev ChatRecords := List ChatRecord

/-- self.data: the insertion-ordered dictionary from session index to
history list.  Session indices are modelled as strings. -/
abbrev HistData := List (String × ChatRecords)

/-- Dictionary lookup. -/
def dataGet : HistData → String → Option ChatRecords
  | [], _ => none
  | (k', v) :: rest, k => if k' = k then some v else dataGet rest k

/-- Dictionary update in place, preserving insertion order; appends the
key when absent. -/
def dataSet : HistData → String → ChatRecords → HistData
  | [], k, v => [(k, v)]
  | (k', v') :: rest, k, v =>
    if k' = k then (k, v) :: rest else (k', v') :: dataSet rest k v

/-- dict.setdefault(index, []): returns the stored list and the
possibly-extended dictionary. -/
def dataSetdefault (d : HistData) (k : String) : ChatRecords × HistData :=
  match dataGet d k with
  | some v => (v, d)
  | none => ([], d ++ [(k, [])])

/-- The chronological comparison used by the history sort. -/
def timeLe (a b : ChatRecord) : Prop := a.time ≤ b.time

instance : DecidableRel timeLe := fun a b =>
  inferInstanceAs (Decidable (a.time ≤ b.time))

instance : IsTotal ChatRecord timeLe := ⟨fun a b => le_total a.time b.time⟩

instance : IsTrans ChatRecord timeLe := ⟨fun _ _ _ h h' => le_trans h h'⟩

namespace APIAliQwen

/-- The backward walk of get_chat_records_history (rali.py lines
531-548) over the reversed history (newest first): the running
character count is accumulated only when a character bound is given
(TypeError when a record len field is None), and the walk stops at the
first record that pushes the running count beyond the bound or whose
age exceeds the millisecond time bound, returning its reversed index. -/
def beyondWalk (hmc : Option Nat) (hmtMs : Option ℚ) (nowTs : Int) :
    Nat → Nat → ChatRecords → Except PyErr (Option Nat)
  | _, _, [] => .ok none
  | i, charLen, r :: rest => do
    let step ← match hmc with
      | none => .ok (charLen, false)
      | some m =>
        match r.len with
        | none => .error .typeError
        | some l => .ok (charLen + l, decide (charLen + l > m))
    if step.2 then .ok (some i)
    else
      let overAge : Bool := match hmtMs with
        | none => false
        | some t => decide (((nowTs - r.time : Int) : ℚ) > t)
      if overAge then .ok (some i)
      else beyondWalk hmc hmtMs nowTs (i + 1) step.1 rest

/-- get_chat_records_history (rali.py lines 498-567): setdefault the
session list, fall back to the instance-wide bounds, compute the cut
point by the backward walk, and either physically delete the cut
records (delete=True, the returned list is the stored list) or return
the kept slice only.  The dictionary state is returned alongside the
result so that mutation survives a raised exception. -/
def get_chat_records_history (cfg : Config) (nowTs : Int) (d : HistData)
    (index : String) (hmc0 : Option Nat) (hmt0 : Option ℚ) (delete : Bool) :
    HistData × Except PyErr ChatRecords :=
  let hist := (dataSetdefault d index).1
  let d1 := (dataSetdefault d index).2
  let hmc := hmc0 <|> cfg.history_max_char
  let hmt := hmt0 <|> cfg.history_max_time
  let hmtMs := hmt.map (· * 1000)
  match beyondWalk hmc hmtMs nowTs 0 0 hist.reverse with
  | .error e => (d1, .error e)
  | .ok none => (d1, .ok hist)
  | .ok (some i) =>
    let kept := if i = 0 then [] else hist.drop (hist.length - i)
    if delete then (dataSet d1 index kept, .ok kept)
    else (d1, .ok kept)

/-- One element of the records argument of append_chat_records_history
after the string and list normalizations: time and role fall back to
the current timestamp and the user role. -/
structure ChatRecordsAppend : Type where
  time : Option Int
  role : Option ChatRecordRole
  content : String
deriving DecidableEq, Repr

/-- append_chat_records_history (rali.py lines 435-495): normalize the
appended records, extend the stored session list, sort it by timestamp,
and trim records beyond the bounds through get_chat_records_history
with delete=True.  (The Python sort is stable; stability is not relied
upon by any theorem below.) -/
def append_chat_records_history (cfg : Config) (nowTs : Int) (d : HistData)
    (records : List ChatRecordsAppend) (index : String)
    (hmc0 : Option Nat) (hmt0 : Option ℚ) : HistData × Except PyErr Unit :=
  let newRecs : ChatRecords := records.map fun a =>
    { time := a.time.getD nowTs
      role := a.role.getD .user
      content := some a.content
      len := some a.content.length
      token := none
      web := none
      think := none }
  let hist := (dataSetdefault d index).1
  let d1 := (dataSetdefault d index).2
  let hist1 := List.insertionSort timeLe (hist ++ newRecs)
  let d2 := dataSet d1 index hist1
  ((get_chat_records_history cfg nowTs d2 index hmc0 hmt0 true).1,
   (get_chat_records_history cfg nowTs d2 index hmc0 hmt0 true).2.map fun _ => ())

/-- The vendor response handed to a chat call: the content type header,
the decoded body for the non-streaming path and the line iterator for
the streaming path. -/
structure VendorResponse : Type where
  contentType : String
  json : RespJson
  lines : List SSELine

/-- Python str.startswith, on the character lists of the strings. -/
def pyStartsWith (s p : String) : Bool := p.data.isPrefixOf s.data

/-- request (rali.py lines 125-175), response handling only: the
outgoing parameter massaging has no observable effect on the claims.
Streaming returns the line iterator; otherwise a non-JSON content type
or a body carrying a code field raises AssertionError. -/
def request (_messages : List (ChatRecordRole × Option String))
    (stream : Bool) (resp : VendorResponse) :
    Except PyErr (RespJson ⊕ List SSELine) :=
  if stream then .ok (.inr resp.lines)
  else if pyStartsWith resp.contentType ("application/json") then
    if resp.json.code.isSome then .error .assertionError
    else .ok (.inl resp.json)
  else .error .assertionError

/-- The value returned by a successful chat call: the completed record
for the non-streaming path, or the shared generator state plus the
remaining lines for the streaming path (the two generators are the
drainText and drainThink functions applied to that state). -/
inductive ChatResult : Type where
  | record (r : ChatRecord)
  | streaming (st : GenState) (rest : List SSELine)

/-- chat (rali.py lines 625-780): validate the text and the think-needs
-stream constraint, join the system descriptions, fetch-and-trim the
session history, build the user record, perform the request, extract
the reply (record or generator state), append the user and reply
records to the stored session list, and for the non-streaming path run
insert_db before returning.  The dictionary state is returned alongside
the result, so mutations that precede a raised exception survive it. -/
def chat (cfg : Config) (d : HistData) (nowTs : Int)
    (text : String) (index : Option String) (system : Option String)
    (think stream : Bool) (resp : VendorResponse)
    (hmc0 : Option Nat) (hmt0 : Option ℚ) :
    HistData × Except PyErr ChatResult :=
  if text = "" then (d, .error .valueError)
  else if think ∧ ¬stream then (d, .error .valueError)
  else
    let sys : Option String :=
      match system, cfg.system with
      | some s, some cs => some (cs ++ s)
      | some s, none => some s
      | none, _ => cfg.system
    let histStep : HistData × Except PyErr ChatRecords :=
      match index with
      | some i => get_chat_records_history cfg nowTs d i hmc0 hmt0 true
      | none => (d, .ok [])
    match histStep with
    | (d1, .error e) => (d1, .error e)
    | (d1, .ok hist) =>
      let chatRecordsRole : ChatRecords :=
        match sys with
        | some s =>
          [{ time := nowTs, role := .system, content := some s,
             len := some s.length, token := none, web := none, think := none }]
        | none => []
      let chatRecordNow : ChatRecord :=
        { time := nowTs
          role := .user
          content := some text
          len := some text.length
          token := none
          web := none
          think := none }
      let messages :=
        (chatRecordsRole ++ hist ++ [chatRecordNow]).map fun m => (m.role, m.content)
      match request messages stream resp with
      | .error e => (d1, .error e)
      | .ok (.inr lines) =>
        match extract_response_generator nowTs lines with
        | .error e => (d1, .error e)
        | .ok (st, rest) =>
          let d2 := match index with
            | some i => dataSet d1 i (hist ++ [chatRecordNow, st.record])
            | none => d1
          (d2, .ok (.streaming st rest))
      | .ok (.inl jsonBody) =>
        match extract_response_record nowTs jsonBody with
        | .error e => (d1, .error e)
        | .ok reply =>
          let d2 := match index with
            | some i => dataSet d1 i (hist ++ [chatRecordNow, reply])
            | none => d1
          match insert_db reply with
          | .error e => (d2, .error e)
          | .ok _ => (d2, .ok (.record reply))

end APIAliQwen

namespace RAPIBaiduChat

/-- The JSON payload attached to the AssertionError raised by
RAPIBaidu.request when the vendor body carries an error_code field
(rbaidu_base.py lines 129-134); chat reads exc.args[1]["error_code"]. -/
structure BaiduPayload : Type where
  error_code : Int
deriving DecidableEq, Repr

/-- Errors escaping the modelled Baidu chat: a vendor error re-raised
to the caller, or the interpreter recursion limit being hit by the
self-recursive retry. -/
inductive BaiduErr : Type where
  | vendor (p : BaiduPayload)
  | recursionError
deriving DecidableEq, Repr

/-- The character argument of chat: None (use self.character), the
literal False (send no system field), or an explicit string. -/
inductive CharacterArg : Type where
  | default
  | noSystem
  | use (s : String)
deriving DecidableEq, Repr

/-- The system field actually sent, resolved from the character
argument and self.character (rbaidu_chat.py lines 106-111). -/
def resolveCharacter (selfCharacter : Option String) : CharacterArg → Option String
  | .default => selfCharacter
  | .noSystem => none
  | .use s => some s

/-- chat of rbaidu_chat.py lines 62-154 (identically rbaidu.py lines
226-331), restricted to its request-and-retry behaviour: the vendor is
an oracle from the sent system field to a reply or an error payload
(text and history are identical between the original call and the
retry, so they are omitted from the oracle key).  On a vendor error
with code 336104 the code calls itself with character=False; any other
vendor error is re-raised.  The self-recursion is bounded only by the
Python recursion limit, modelled by fuel.  The first component is the
trace of system fields sent, in request order. -/
def chat (oracle : Option String → Except BaiduPayload String)
    (selfCharacter : Option String) :
    Nat → CharacterArg → List (Option String) × Except BaiduErr String
  | 0, charArg =>
    match oracle (resolveCharacter selfCharacter charArg) with
    | .ok r => ([resolveCharacter selfCharacter charArg], .ok r)
    | .error p =>
      if p.error_code = 336104 then
        ([resolveCharacter selfCharacter charArg], .error .recursionError)
      else ([resolveCharacter selfCharacter charArg], .error (.vendor p))
  | n + 1, charArg =>
    match oracle (resolveCharacter selfCharacter charArg) with
    | .ok r => ([resolveCharacter selfCharacter charArg], .ok r)
    | .error p =>
      if p.error_code = 336104 then
        (resolveCharacter selfCharacter charArg
           :: (chat oracle selfCharacter n .noSystem).1,
         (chat oracle selfCharacter n .noSystem).2)
      else ([resolveCharacter selfCharacter charArg], .error (.vendor p))

/-- Lift a vendor failure into the error type of chat. -/
def liftVendor : Except BaiduPayload String → Except BaiduErr String
  | .ok r => .ok r
  | .error p => .error (.vendor p)

end RAPIBaiduChat

/-! Concrete instances used by the closed theorems and witnesses. -/

/-- A plain history record at time t with content c, as produced by
append_chat_records_history for a user message. -/
def histRec (t : Int) (c : String) : ChatRecord :=
  ⟨t, .user, some c, some c.length, none, none, none⟩

/-- A configuration with a 15 second history age bound. -/
def trimCfg : APIAliQwen.Config := ⟨none, 1/2, none, some 15⟩

/-- A configuration with no history bounds and no system description. -/
def plainCfg : APIAliQwen.Config := ⟨none, 1/2, none, none⟩

/-- A session history with records at times 0s, 10s and 20s. -/
def trimHist : HistData :=
  [("k", [histRec 0 "a", histRec 10000 "b", histRec 20000 "c"])]

/-- First line of a thinking stream that carries both reply text and a
thinking fragment. -/
def thinkLine1 : RespJson := ⟨some ⟨.str "A", some "T", []⟩, none, none⟩

/-- Second line of the thinking stream: no thinking payload (the
end-of-thinking signal), reply text B and a usage object. -/
def thinkLine2 : RespJson := ⟨some ⟨.str "B", none, []⟩, some ⟨3, 1, 2, none⟩, none⟩

/-- The mocked vendor reply of the end-to-end scenario: output only,
no usage object. -/
def helloResp : APIAliQwen.VendorResponse :=
  ⟨"application/json", ⟨some ⟨.str "Hi there", none, []⟩, none, none⟩, []⟩

/-- The user record the end-to-end scenario appends. -/
def helloUserRec : ChatRecord := ⟨100, .user, some "Hello", some 5, none, none, none⟩

/-- The assistant record the end-to-end scenario appends. -/
def helloReplyRec : ChatRecord :=
  ⟨100, .assistant, some "Hi there", some 8, none, none, none⟩

/-- A generator-state record used by the ordering theorems. -/
def pendingThinkRec : ChatRecord := ⟨0, .assistant, some "x", some 1, none, none, some "T"⟩

/-- A Baidu vendor oracle that always fails with the system-role error
code 336104, for every request. -/
def oracle336104 : Option String → Except RAPIBaiduChat.BaiduPayload String :=
  fun _ => .error ⟨336104⟩

/-- A Baidu vendor oracle that rejects any request carrying a system
field with code 336104 and answers a system-free request. -/
def oracleRetryOk : Option String → Except RAPIBaiduChat.BaiduPayload String :=
  fun s =>
    match s with
    | some _ => .error ⟨336104⟩
    | none => .ok ("hi")

/-- A Baidu vendor oracle failing with an unrelated error code. -/
def oracleOther : Option String → Except RAPIBaiduChat.BaiduPayload String :=
  fun _ => .error ⟨42⟩

/-! Theorems. -/

open APIAliQwen

/-- C1: on a thinking stream whose first data line carries both reply
text A and a thinking fragment, the end-of-thinking branch overwrites
content with the reply text of the signalling line but still adds its
length to the running len counter, so after both generators are fully
drained the completed record has content B (length 1) while its len
field is 2: the len field does not equal the character length of the
content field. -/
theorem stream_len_mismatch :
    (APIAliQwen.runThinkThenText 0 [.data thinkLine1, .data thinkLine2]).map
        (fun out => (out.1.record.content, out.1.record.len))
      = .ok (some "B", some 2)
    ∧ ("B" : String).length = 1 := by
  exact ⟨rfl, rfl⟩

/-- C5 counterexample: with records at times 0s, 10s, 20s, a 15 second
age bound and now = 21s, the fetch-with-trim returns the 10s and the
20s records, not only the 20s record: at 21s the 10s record is 11
seconds old and within the bound. -/
theorem history_trim_cex :
    (APIAliQwen.get_chat_records_history trimCfg 21000 trimHist "k" none none true).2
      = .ok [histRec 10000 "b", histRec 20000 "c"]
    ∧ [histRec 10000 "b", histRec 20000 "c"] ≠ [histRec 20000 "c"] := by
  constructor
  · norm_num [APIAliQwen.get_chat_records_history, dataSetdefault, dataGet, dataSet,
      APIAliQwen.beyondWalk, trimCfg, trimHist, histRec, Bind.bind, Except.bind]
  · decide

/-- C5 (amended): the same fetch-with-trim returns the 10s and 20s
records and physically removes only the 0s record from the stored
history. -/
theorem history_trim_scenario :
    APIAliQwen.get_chat_records_history trimCfg 21000 trimHist "k" none none true
      = ([("k", [histRec 10000 "b", histRec 20000 "c"])],
         .ok [histRec 10000 "b", histRec 20000 "c"]) := by
  norm_num [APIAliQwen.get_chat_records_history, dataSetdefault, dataGet, dataSet,
    APIAliQwen.beyondWalk, trimCfg, trimHist, histRec, Bind.bind, Except.bind]

/-- C6: the end-to-end scenario appends the user record for Hello and
the assistant record for Hi there to history key s1, but then chat
raises TypeError instead of returning the record: the mocked reply has
no usage object, so the token field is None and insert_db evaluates
record token total on it. -/
theorem chat_hello_crash :
    APIAliQwen.chat plainCfg [] 100 "Hello" (some "s1") none false false
        helloResp none none
      = ([("s1", [helloUserRec, helloReplyRec])], .error .typeError) := by
  rfl

/-- C7 counterexample: when the single newest record itself exceeds the
character bound, the trim walk stops at reversed index zero and the
delete branch clears the whole stored list, removing the newest
record. -/
theorem history_trim_clears_newest :
    APIAliQwen.get_chat_records_history plainCfg 100 [("k", [histRec 0 "hello"])]
        "k" (some 3) none true
      = ([("k", [])], .ok [])
    ∧ histRec 0 "hello" ∉ ([] : ChatRecords) := by
  exact ⟨rfl, by simp⟩

/-- C3 counterexample: reading the text generator while the thinking
stream is not yet emptied raises an AssertionError whose message is the
source literal with the word used, which differs from the message
quoted by the claim. -/
theorem text_error_message_cex :
    APIAliQwen.drainText ⟨pendingThinkRec, false⟩ []
      = .error (.assertionText ("must first used up think generator"))
    ∧ PyErr.assertionText ("must first used up think generator")
        ≠ PyErr.assertionText ("must first use up think generator") := by
  exact ⟨rfl, by decide⟩

/-- C8 counterexample: when the vendor answers every request, with or
without a system field, with error code 336104, the chat call keeps
retrying itself: with recursion budget 3 it sends four requests before
failing with the recursion limit, so the 336104 error does not trigger
exactly one automatic retry. -/
theorem baidu_retry_unbounded :
    RAPIBaiduChat.chat oracle336104 none 3 (.use "S")
      = ([some "S", none, none, none], .error .recursionError)
    ∧ ([some "S", none, none, none] : List (Option String)).length ≠ 2 := by
  exact ⟨rfl, by decide⟩

/-- C9: construction of APIAliQwen succeeds, storing the supplied
configuration, exactly when the randomness value lies in the closed
interval from 0 to 1, and fails with ValueError exactly when it lies
outside. -/
theorem init_rand_range (system : Option String) (rand : ℚ)
    (hmc : Option Nat) (hmt : Option ℚ) :
    (APIAliQwen.init system rand hmc hmt = .ok ⟨system, rand, hmc, hmt⟩
       ↔ (0 ≤ rand ∧ rand ≤ 1))
    ∧ (APIAliQwen.init system rand hmc hmt = .error .valueError
       ↔ ¬(0 ≤ rand ∧ rand ≤ 1)) := by
  unfold APIAliQwen.init
  by_cases h : 0 ≤ rand ∧ rand ≤ 1 <;> simp [h]

/-- The per-line token and citation updates do not touch content, len,
think or the emptied flag. -/
lemma updateTokenWeb_ok (st : GenState) (j : RespJson) (st' : GenState)
    (h : APIAliQwen.updateTokenWeb st j = .ok st') :
    st'.record.content = st.record.content ∧ st'.record.len = st.record.len
      ∧ st'.record.think = st.record.think
      ∧ st'.isThinkEmptied = st.isThinkEmptied := by
  unfold APIAliQwen.updateTokenWeb at h
  split at h
  · split at h
    · exact absurd h (by simp)
    · cases h
      exact ⟨rfl, rfl, rfl, rfl⟩
  · cases h
    exact ⟨rfl, rfl, rfl, rfl⟩

/-- The text-mode generator loop appends exactly its yielded fragments
to the accumulated content. -/
lemma drainTextLoop_content :
    ∀ (lines : List SSELine) (st st' : GenState) (ys : List String) (c : String),
      APIAliQwen.drainTextLoop st lines = .ok (st', ys) →
      st.record.content = some c →
      st'.record.content = some (c ++ strConcat ys) := by
  intro lines
  induction lines with
  | nil =>
    intro st st' ys c h hc
    unfold APIAliQwen.drainTextLoop at h
    cases hdb : APIAliQwen.insert_db st.record with
    | error e =>
      rw [hdb] at h
      exact absurd h (by simp [Bind.bind, Except.bind])
    | ok u =>
      rw [hdb] at h
      simp only [Bind.bind, Except.bind, Except.ok.injEq, Prod.mk.injEq] at h
      obtain ⟨h1, h2⟩ := h
      subst h1; subst h2
      simpa [strConcat] using hc
  | cons head rest ih =>
    intro st st' ys c h hc
    cases head with
    | other =>
      rw [show APIAliQwen.drainTextLoop st (.other :: rest)
            = APIAliQwen.drainTextLoop st rest from rfl] at h
      exact ih st st' ys c h hc
    | data j =>
      rw [show APIAliQwen.drainTextLoop st (.data j :: rest)
            = (do
                let st1 ← APIAliQwen.updateTokenWeb st j
                match ← APIAliQwen.extract_response_text j with
                | none => APIAliQwen.drainTextLoop st1 rest
                | some f => do
                  let c ← APIAliQwen.optAppend st1.record.content f
                  let l ← APIAliQwen.optLenAdd st1.record.len f.length
                  let st2 := { st1 with
                    record := { st1.record with content := c, len := l } }
                  let (st3, ys) ← APIAliQwen.drainTextLoop st2 rest
                  .ok (st3, f :: ys)) from rfl] at h
      cases hu : APIAliQwen.updateTokenWeb st j with
      | error e => simp [hu, Bind.bind, Except.bind] at h
      | ok st1 =>
        have hc1 : st1.record.content = some c :=
          (updateTokenWeb_ok st j st1 hu).1 ▸ hc
        cases ht : APIAliQwen.extract_response_text j with
        | error e => simp [hu, ht, Bind.bind, Except.bind] at h
        | ok t =>
          cases t with
          | none =>
            simp only [hu, ht, Bind.bind, Except.bind] at h
            exact ih st1 st' ys c h hc1
          | some f =>
            simp only [hu, ht, Bind.bind, Except.bind] at h
            rw [hc1] at h
            cases hl : APIAliQwen.optLenAdd st1.record.len f.length with
            | error e => simp [APIAliQwen.optAppend, hl, Except.bind] at h
            | ok l =>
              simp only [APIAliQwen.optAppend, hl, Except.bind] at h
              cases hrec : APIAliQwen.drainTextLoop
                  { st1 with record :=
                    { st1.record with content := some (c ++ f), len := l } } rest with
              | error e => simp [hrec, Except.bind] at h
              | ok out =>
                obtain ⟨st3, ys2⟩ := out
                simp only [hrec, Except.bind, Except.ok.injEq, Prod.mk.injEq] at h
                obtain ⟨h1, h2⟩ := h
                subst h1; subst h2
                have := ih _ st3 ys2 (c ++ f) hrec rfl
                rw [this, strConcat, ← String.append_assoc]

/-- The first next call on the text generator, characterized by the
emptied flag: the normalized state is returned with the accumulated
content when thinking is emptied, and the ordering AssertionError with
the literal source message is raised otherwise. -/
lemma textGenFirstNext_spec (st : GenState) :
    (st.isThinkEmptied = true →
      APIAliQwen.textGenFirstNext st
        = .ok (APIAliQwen.normState st, st.record.content.getD ""))
    ∧ (st.isThinkEmptied = false →
      APIAliQwen.textGenFirstNext st
        = .error (.assertionText ("must first used up think generator"))) := by
  have hemp : (APIAliQwen.normState st).isThinkEmptied = st.isThinkEmptied := rfl
  constructor <;> intro h
  · have hcontent : (APIAliQwen.normState st).record.content.getD ""
        = st.record.content.getD "" := rfl
    unfold APIAliQwen.textGenFirstNext
    rw [hemp, h, hcontent]
    simp
  · unfold APIAliQwen.textGenFirstNext
    rw [hemp, h]
    simp

/-- C2: whenever fully draining the text generator succeeds, the
concatenation of the yielded fragments equals the final content field
of the shared reply record. -/
theorem drainText_concat_eq_content (st : GenState) (lines : List SSELine)
    (st' : GenState) (ys : List String)
    (h : APIAliQwen.drainText st lines = .ok (st', ys)) :
    st'.record.content = some (strConcat ys) := by
  unfold APIAliQwen.drainText at h
  cases he : st.isThinkEmptied with
  | false =>
    rw [(textGenFirstNext_spec st).2 he] at h
    exact absurd h (by simp [Bind.bind, Except.bind])
  | true =>
    rw [(textGenFirstNext_spec st).1 he] at h
    simp only [Bind.bind, Except.bind] at h
    cases hloop : APIAliQwen.drainTextLoop (APIAliQwen.normState st) lines with
    | error e =>
      rw [hloop] at h
      exact absurd h (by simp [Bind.bind, Except.bind])
    | ok out =>
      obtain ⟨st2, ys2⟩ := out
      rw [hloop] at h
      simp only [Bind.bind, Except.bind, Except.ok.injEq, Prod.mk.injEq] at h
      obtain ⟨h1, h2⟩ := h
      subst h1; subst h2
      have hcn : (APIAliQwen.normState st).record.content
          = some (st.record.content.getD "") := rfl
      have hfin := drainTextLoop_content lines (APIAliQwen.normState st) st2 ys2
        (st.record.content.getD "") hloop hcn
      rw [hfin, strConcat]

/-- C2 witness: a concrete drained stream, with the conclusion obtained
by applying the draining theorem. -/
theorem drainText_concat_eq_content_witness :
    ({ record := { time := 0, role := .assistant, content := some "Hi",
                   len := some 2, token := some ⟨3, 1, 2, none⟩, web := none,
                   think := some "" },
       isThinkEmptied := true } : GenState).record.content
      = some (strConcat ["Hi"]) :=
  drainText_concat_eq_content
    ⟨⟨0, .assistant, some "Hi", some 2, some ⟨3, 1, 2, none⟩, none, none⟩, true⟩
    []
    ⟨⟨0, .assistant, some "Hi", some 2, some ⟨3, 1, 2, none⟩, none, some ""⟩, true⟩
    ["Hi"]
    rfl

/-- C3 (amended): while the thinking stream is not yet emptied, the
first next call on the text generator — and hence any attempt to drain
it — raises AssertionError carrying the source message with the word
used, namely "must first used up think generator"; the think generator
sets the emptied flag when it encounters a data line with no thinking
payload, and once the flag is set the first next call on the text
generator succeeds. -/
theorem text_think_ordering (st : GenState) (lines : List SSELine) :
    (st.isThinkEmptied = false →
      APIAliQwen.textGenFirstNext st
        = .error (.assertionText ("must first used up think generator")))
    ∧ (st.isThinkEmptied = false →
      APIAliQwen.drainText st lines
        = .error (.assertionText ("must first used up think generator")))
    ∧ (∀ (j : RespJson) (rest : List SSELine) (st2 : GenState)
         (ys : List String) (rem : List SSELine),
        APIAliQwen.extract_response_think j = .ok none →
        APIAliQwen.drainThinkLoop st (.data j :: rest) = .ok (st2, ys, rem) →
        st2.isThinkEmptied = true)
    ∧ (st.isThinkEmptied = true →
      APIAliQwen.textGenFirstNext st
        = .ok (APIAliQwen.normState st, st.record.content.getD "")) := by
  refine ⟨fun h => (textGenFirstNext_spec st).2 h, fun h => ?_,
    fun j rest st2 ys rem hth hloop => ?_, fun h => (textGenFirstNext_spec st).1 h⟩
  · unfold APIAliQwen.drainText
    rw [(textGenFirstNext_spec st).2 h]
    rfl
  · rw [show APIAliQwen.drainThinkLoop st (.data j :: rest)
        = (do
            let st1 ← APIAliQwen.updateTokenWeb st j
            match ← APIAliQwen.extract_response_think j with
            | none => do
              let t ← APIAliQwen.extract_response_text j
              let l ← match t with
                | none => .ok st1.record.len
                | some s => APIAliQwen.optLenAdd st1.record.len s.length
              .ok ({ record := { st1.record with content := t, len := l },
                     isThinkEmptied := true }, [], rest)
            | some f => do
              let c ← APIAliQwen.optAppend st1.record.think f
              let st2 := { st1 with record := { st1.record with think := c } }
              let (st3, ys, rem) ← APIAliQwen.drainThinkLoop st2 rest
              .ok (st3, f :: ys, rem)) from rfl] at hloop
    cases hu : APIAliQwen.updateTokenWeb st j with
    | error e => simp [hu, Bind.bind, Except.bind] at hloop
    | ok st1 =>
      simp only [hu, hth, Bind.bind, Except.bind] at hloop
      cases ht : APIAliQwen.extract_response_text j with
      | error e => simp [ht, Except.bind] at hloop
      | ok t =>
        simp only [ht, Except.bind] at hloop
        cases t with
        | none =>
          simp only [Except.bind, Except.ok.injEq, Prod.mk.injEq] at hloop
          obtain ⟨h1, _⟩ := hloop
          rw [← h1]
        | some s =>
          cases hl : APIAliQwen.optLenAdd st1.record.len s.length with
          | error e => simp [hl, Except.bind] at hloop
          | ok l =>
            simp only [hl, Except.bind, Except.ok.injEq, Prod.mk.injEq] at hloop
            obtain ⟨h1, _⟩ := hloop
            rw [← h1]

/-- C3 witness: at a concrete pending-think state the text generator
raises the ordering error; draining the concrete think stream flips
the emptied flag, after which the first next call succeeds. -/
theorem text_think_ordering_witness :
    APIAliQwen.textGenFirstNext ⟨pendingThinkRec, false⟩
      = .error (.assertionText ("must first used up think generator"))
    ∧ APIAliQwen.drainText ⟨pendingThinkRec, false⟩ []
      = .error (.assertionText ("must first used up think generator"))
    ∧ (({ record := ⟨0, .assistant, some "B", some 2,
            some ⟨3, 1, 2, none⟩, none, some "T"⟩,
          isThinkEmptied := true } : GenState).isThinkEmptied = true)
    ∧ APIAliQwen.textGenFirstNext ⟨pendingThinkRec, true⟩
      = .ok (APIAliQwen.normState ⟨pendingThinkRec, true⟩,
             pendingThinkRec.content.getD "") := by
  refine ⟨(text_think_ordering ⟨pendingThinkRec, false⟩ []).1 rfl,
    (text_think_ordering ⟨pendingThinkRec, false⟩ []).2.1 rfl,
    (text_think_ordering ⟨pendingThinkRec, false⟩ []).2.2.1 thinkLine2 []
      ⟨⟨0, .assistant, some "B", some 2, some ⟨3, 1, 2, none⟩, none, some "T"⟩, true⟩
      [] [] rfl rfl,
    (text_think_ordering ⟨pendingThinkRec, true⟩ []).2.2.2 rfl⟩

/-- C4: in a three-line stream where line 1 carries no citations, line
2 carries a non-empty citation list and line 3 carries different
citations and the usage object, fully draining the text generator
succeeds and leaves the web field of the final record equal to the
normalized citations of line 2: the first non-empty citation list wins
and line 3 does not overwrite it. -/
theorem web_first_nonempty_wins (a b c : String) (w2 w3 : List RawWebItem)
    (u : RespUsage) (nowTs : Int) (h2 : w2 ≠ []) :
    (APIAliQwen.runTextStream nowTs
          [.data ⟨some ⟨.str a, none, []⟩, none, none⟩,
           .data ⟨some ⟨.str b, none, w2⟩, none, none⟩,
           .data ⟨some ⟨.str c, none, w3⟩, some u, none⟩]).map
        (fun out => out.1.record.web)
      = .ok (some (w2.map APIAliQwen.normalizeWebItem)) := by
  obtain ⟨x, xs, rfl⟩ : ∃ x xs, w2 = x :: xs := by
    cases w2 with
    | nil => exact absurd rfl h2
    | cons x xs => exact ⟨x, xs, rfl⟩
  rfl

/-- C4 witness: the first-non-empty-wins theorem applied to a concrete
three-line stream. -/
theorem web_first_nonempty_wins_witness :
    (APIAliQwen.runTextStream 0
          [.data ⟨some ⟨.str "a", none, []⟩, none, none⟩,
           .data ⟨some ⟨.str "b", none, [⟨some "s", none, 1, "u", "t"⟩]⟩, none, none⟩,
           .data ⟨some ⟨.str "c", none, [⟨none, none, 2, "v", "w"⟩]⟩,
                  some ⟨3, 1, 2, none⟩, none⟩]).map
        (fun out => out.1.record.web)
      = .ok (some ([⟨some "s", none, 1, "u", "t"⟩].map APIAliQwen.normalizeWebItem)) :=
  web_first_nonempty_wins "a" "b" "c" [⟨some "s", none, 1, "u", "t"⟩]
    [⟨none, none, 2, "v", "w"⟩] ⟨3, 1, 2, none⟩ 0 (by simp)

/-- Looking up a key just stored by dataSet returns the stored list. -/
lemma dataGet_dataSet_self (d : HistData) (k : String) (v : ChatRecords) :
    dataGet (dataSet d k v) k = some v := by
  induction d with
  | nil => simp [dataSet, dataGet]
  | cons p rest ih =>
    obtain ⟨k', v'⟩ := p
    by_cases hk : k' = k <;> simp [dataSet, dataGet, hk, ih]

/-- Appending a fresh key at the end makes it retrievable. -/
lemma dataGet_append_absent (d : HistData) (k : String) (v : ChatRecords)
    (h : dataGet d k = none) : dataGet (d ++ [(k, v)]) k = some v := by
  induction d with
  | nil => simp [dataGet]
  | cons p rest ih =>
    obtain ⟨k', v'⟩ := p
    by_cases hk : k' = k
    · simp [dataGet, hk] at h
    · simp only [dataGet, List.cons_append, if_neg hk] at h ⊢
      exact ih h

/-- setdefault returns the stored list, defaulting to the empty list,
and the key is present afterwards. -/
lemma dataSetdefault_spec (d : HistData) (k : String) :
    (dataSetdefault d k).1 = (dataGet d k).getD []
    ∧ dataGet (dataSetdefault d k).2 k = some ((dataGet d k).getD []) := by
  unfold dataSetdefault
  cases hg : dataGet d k with
  | none => simp [dataGet_append_absent d k [] hg]
  | some v => simp [hg]

/-- Dropping a prefix of a sorted list leaves a sorted list. -/
lemma sorted_drop (l : ChatRecords) (h : List.Sorted timeLe l) (n : Nat) :
    List.Sorted timeLe (l.drop n) :=
  h.sublist (List.drop_sublist n l)

/-- Fetch-with-trim, characterized: on success the returned list is a
suffix of the previously stored list and is what is stored afterwards;
on an exception the stored list is unchanged. -/
lemma get_delete_cases (cfg : APIAliQwen.Config) (nowTs : Int) (d : HistData)
    (index : String) (hmc0 : Option Nat) (hmt0 : Option ℚ) :
    (∀ kept,
      (APIAliQwen.get_chat_records_history cfg nowTs d index hmc0 hmt0 true).2
        = .ok kept →
      ∃ k, kept = ((dataGet d index).getD []).drop k
        ∧ dataGet
            (APIAliQwen.get_chat_records_history cfg nowTs d index hmc0 hmt0 true).1
            index = some kept)
    ∧ (∀ e,
      (APIAliQwen.get_chat_records_history cfg nowTs d index hmc0 hmt0 true).2
        = .error e →
      dataGet
          (APIAliQwen.get_chat_records_history cfg nowTs d index hmc0 hmt0 true).1
          index = some ((dataGet d index).getD [])) := by
  obtain ⟨hfst, hsnd⟩ := dataSetdefault_spec d index
  unfold APIAliQwen.get_chat_records_history
  rw [hfst]
  cases hbw : APIAliQwen.beyondWalk (hmc0 <|> cfg.history_max_char)
      (Option.map (fun x => x * 1000) (hmt0 <|> cfg.history_max_time)) nowTs 0 0
      (((dataGet d index).getD []).reverse) with
  | error e =>
    simp only [hbw]
    exact ⟨fun kept hk => by simp at hk, fun e' he => hsnd⟩
  | ok beyond =>
    cases beyond with
    | none =>
      simp only [hbw]
      refine ⟨fun kept hk => ?_, fun e' he => by simp at he⟩
      simp only [Except.ok.injEq] at hk
      subst hk
      exact ⟨0, by simp, hsnd⟩
    | some i =>
      simp only [hbw, if_pos]
      refine ⟨fun kept hk => ?_, fun e' he => by simp at he⟩
      simp only [Except.ok.injEq] at hk
      subst hk
      by_cases hi : i = 0
      · exact ⟨((dataGet d index).getD []).length, by simp [hi, List.drop_length],
          by simp only [hi, if_pos rfl]; exact dataGet_dataSet_self _ index _⟩
      · exact ⟨((dataGet d index).getD []).length - i, by simp [hi],
          by simp only [if_neg hi]; exact dataGet_dataSet_self _ index _⟩

/-- C7 (amended): appending records keeps the stored session list
sorted by timestamp, and fetch-with-trim removes only a contiguous
oldest-first prefix: the kept list is always a suffix of the stored
list — possibly empty, so the newest record is removed exactly when
every record is removed. -/
theorem history_sorted_and_trim_suffix :
    (∀ (cfg : APIAliQwen.Config) (nowTs : Int) (d : HistData)
       (records : List APIAliQwen.ChatRecordsAppend) (index : String)
       (hmc0 : Option Nat) (hmt0 : Option ℚ),
      List.Sorted timeLe
        ((dataGet
          (APIAliQwen.append_chat_records_history cfg nowTs d records index
            hmc0 hmt0).1 index).getD []))
    ∧ (∀ (cfg : APIAliQwen.Config) (nowTs : Int) (d : HistData) (index : String)
         (hmc0 : Option Nat) (hmt0 : Option ℚ) (kept : ChatRecords),
      (APIAliQwen.get_chat_records_history cfg nowTs d index hmc0 hmt0 true).2
        = .ok kept →
      ∃ k, kept = ((dataGet d index).getD []).drop k
        ∧ dataGet
            (APIAliQwen.get_chat_records_history cfg nowTs d index hmc0 hmt0 true).1
            index = some kept) := by
  constructor
  · intro cfg nowTs d records index hmc0 hmt0
    unfold APIAliQwen.append_chat_records_history
    simp only []
    set hist1 := List.insertionSort timeLe ((dataSetdefault d index).1 ++
      records.map fun a =>
        ({ time := a.time.getD nowTs, role := a.role.getD .user,
           content := some a.content, len := some a.content.length,
           token := none, web := none, think := none } : ChatRecord)) with hhist1
    set d2 := dataSet (dataSetdefault d index).2 index hist1 with hd2
    have hsorted : List.Sorted timeLe hist1 := List.sorted_insertionSort timeLe _
    have hstored : dataGet d2 index = some hist1 := dataGet_dataSet_self _ index _
    obtain ⟨hok, herr⟩ := get_delete_cases cfg nowTs d2 index hmc0 hmt0
    cases hres :
        (APIAliQwen.get_chat_records_history cfg nowTs d2 index hmc0 hmt0 true).2 with
    | error e =>
      have hg := herr e hres
      rw [hstored] at hg
      simp only [Option.getD_some] at hg
      rw [hg]
      exact hsorted
    | ok kept =>
      obtain ⟨k, hk, hdg⟩ := hok kept hres
      rw [hstored] at hk
      simp only [Option.getD_some] at hk
      rw [hdg]
      simp only [Option.getD_some]
      rw [hk]
      exact sorted_drop _ hsorted k
  · intro cfg nowTs d index hmc0 hmt0 kept h
    exact (get_delete_cases cfg nowTs d index hmc0 hmt0).1 kept h

/-- C7 witness: a concrete append followed by a concrete trim, with
both conclusions obtained from the invariant theorem. -/
theorem history_sorted_and_trim_suffix_witness :
    List.Sorted timeLe
      ((dataGet
        (APIAliQwen.append_chat_records_history plainCfg 50 trimHist
          [⟨some 5000, none, "q"⟩] "k" none none).1 "k").getD [])
    ∧ ∃ k, [histRec 10000 "b", histRec 20000 "c"]
        = ((dataGet trimHist "k").getD []).drop k
      ∧ dataGet
          (APIAliQwen.get_chat_records_history trimCfg 21000 trimHist "k"
            none none true).1 "k"
          = some [histRec 10000 "b", histRec 20000 "c"] := by
  constructor
  · exact history_sorted_and_trim_suffix.1 plainCfg 50 trimHist
      [⟨some 5000, none, "q"⟩] "k" none none
  · refine history_sorted_and_trim_suffix.2 trimCfg 21000 trimHist "k"
      none none [histRec 10000 "b", histRec 20000 "c"] ?_
    norm_num [APIAliQwen.get_chat_records_history, dataSetdefault, dataGet, dataSet,
      APIAliQwen.beyondWalk, trimCfg, trimHist, histRec, Bind.bind, Except.bind]

/-- Defining equation of the Baidu chat model at positive fuel. -/
lemma baiduChat_succ_eq
    (oracle : Option String → Except RAPIBaiduChat.BaiduPayload String)
    (selfChar : Option String) (n : Nat) (charArg : RAPIBaiduChat.CharacterArg) :
    RAPIBaiduChat.chat oracle selfChar (n + 1) charArg
      = match oracle (RAPIBaiduChat.resolveCharacter selfChar charArg) with
        | .ok r => ([RAPIBaiduChat.resolveCharacter selfChar charArg], .ok r)
        | .error p =>
          if p.error_code = 336104 then
            (RAPIBaiduChat.resolveCharacter selfChar charArg
               :: (RAPIBaiduChat.chat oracle selfChar n .noSystem).1,
             (RAPIBaiduChat.chat oracle selfChar n .noSystem).2)
          else ([RAPIBaiduChat.resolveCharacter selfChar charArg],
                .error (.vendor p)) := rfl

/-- Defining equation of the Baidu chat model at zero fuel. -/
lemma baiduChat_zero_eq
    (oracle : Option String → Except RAPIBaiduChat.BaiduPayload String)
    (selfChar : Option String) (charArg : RAPIBaiduChat.CharacterArg) :
    RAPIBaiduChat.chat oracle selfChar 0 charArg
      = match oracle (RAPIBaiduChat.resolveCharacter selfChar charArg) with
        | .ok r => ([RAPIBaiduChat.resolveCharacter selfChar charArg], .ok r)
        | .error p =>
          if p.error_code = 336104 then
            ([RAPIBaiduChat.resolveCharacter selfChar charArg],
             .error .recursionError)
          else ([RAPIBaiduChat.resolveCharacter selfChar charArg],
                .error (.vendor p)) := rfl

/-- C8 (amended): when the vendor rejects the request with error code
336104 and the system-stripped retry does not itself fail with 336104,
chat performs exactly one automatic retry with the system field
stripped — the request trace is the original system field followed by
none — and returns the retry's result; a vendor error with any other
code propagates to the caller without retry; a successful first request
is returned directly. -/
theorem baidu_retry_once
    (oracle : Option String → Except RAPIBaiduChat.BaiduPayload String)
    (selfChar : Option String) (n : Nat) (charArg : RAPIBaiduChat.CharacterArg) :
    (∀ p, oracle (RAPIBaiduChat.resolveCharacter selfChar charArg) = .error p →
      (p.error_code = 336104 →
        (∀ q, oracle none = .error q → q.error_code ≠ 336104) →
        RAPIBaiduChat.chat oracle selfChar (n + 1) charArg
          = ([RAPIBaiduChat.resolveCharacter selfChar charArg, none],
             RAPIBaiduChat.liftVendor (oracle none)))
      ∧ (p.error_code ≠ 336104 →
        RAPIBaiduChat.chat oracle selfChar (n + 1) charArg
          = ([RAPIBaiduChat.resolveCharacter selfChar charArg],
             .error (.vendor p))))
    ∧ (∀ r, oracle (RAPIBaiduChat.resolveCharacter selfChar charArg) = .ok r →
      RAPIBaiduChat.chat oracle selfChar (n + 1) charArg
        = ([RAPIBaiduChat.resolveCharacter selfChar charArg], .ok r)) := by
  constructor
  · intro p hp
    constructor
    · intro hcode hretry
      rw [baiduChat_succ_eq, hp]
      simp only [hcode, if_pos]
      cases n with
      | zero =>
        rw [baiduChat_zero_eq]
        simp only [RAPIBaiduChat.resolveCharacter]
        cases hr : oracle none with
        | ok r => simp [hr, RAPIBaiduChat.liftVendor]
        | error q =>
          have hq := hretry q hr
          simp [hr, hq, RAPIBaiduChat.liftVendor]
      | succ m =>
        rw [baiduChat_succ_eq]
        simp only [RAPIBaiduChat.resolveCharacter]
        cases hr : oracle none with
        | ok r => simp [hr, RAPIBaiduChat.liftVendor]
        | error q =>
          have hq := hretry q hr
          simp [hr, hq, RAPIBaiduChat.liftVendor]
    · intro hcode
      rw [baiduChat_succ_eq, hp]
      simp [hcode]
  · intro r hr
    rw [baiduChat_succ_eq, hr]

/-- C8 witness: the retry theorem applied to the oracle that rejects
system-carrying requests and answers the stripped retry, and to the
oracle failing with an unrelated code. -/
theorem baidu_retry_once_witness :
    RAPIBaiduChat.chat oracleRetryOk none 5 (.use "S")
      = ([some "S", none], .ok "hi")
    ∧ RAPIBaiduChat.chat oracleOther none 5 (.use "S")
      = ([some "S"], .error (.vendor ⟨42⟩)) := by
  constructor
  · have h := ((baidu_retry_once oracleRetryOk none 4 (.use "S")).1 ⟨336104⟩ rfl).1
      rfl (fun q hq => by simp [oracleRetryOk] at hq)
    simpa [oracleRetryOk, RAPIBaiduChat.liftVendor,
      RAPIBaiduChat.resolveCharacter] using h
  · have h := ((baidu_retry_once oracleOther none 4 (.use "S")).1 ⟨42⟩ rfl).2
      (by decide)
    simpa [RAPIBaiduChat.resolveCharacter] using h

/-- C10: calling chat with the empty string raises ValueError before
the request is built, and the history dictionary is returned unchanged
for every session index. -/
theorem chat_empty_text (cfg : APIAliQwen.Config) (d : HistData) (nowTs : Int)
    (index : Option String) (system : Option String) (think stream : Bool)
    (resp : APIAliQwen.VendorResponse) (hmc0 : Option Nat) (hmt0 : Option ℚ) :
    APIAliQwen.chat cfg d nowTs "" index system think stream resp hmc0 hmt0
      = (d, .error .valueError) := by
  unfold APIAliQwen.chat
  simp

end ReyAPI
